import Mathlib

/-!
Verification of the cpc-api client library (src/cpc_api/api.py) against its
natural-language specification.

The Python module is shallowly embedded: pure URL/validation logic becomes
Lean functions; the mutable interning map and the memoization cache become
explicit state passing; Python exceptions (AssertionError, IndexError,
KeyError) become `Except`/sum results.  Network fetches are external
collaborators: an operation that fetches is modelled up to the URL it
requests, and the decoded JSON payloads are inputs to the model.
-/

namespace CpcApi

/-! ## Client construction (CPCApi.__init__) -/

/-- Python `x or y` on an optional string: `None` and the empty string are
falsy, every other string is truthy. -/
def pyOrStr (x : Option String) (y : String) : String :=
  match x with
  | none => y
  | some s => if s = "" then y else s

/-- The configuration state a `CPCApi` instance holds after `__init__`
(lines 40-58 of api.py): `ptype`, `legislature`, the derived plural and
base URL, and the balloting interning map is created empty (modelled
separately as part of `ApiState`). -/
structure CPCApi where
  ptype : String
  legislature : Option String
  ptype_plural : String
  base_url : String
deriving Repr, DecidableEq

/-- The `format` class attribute of `CPCApi`. -/
def CPCApi.format : String := "json"

/-- Model of `CPCApi.__init__(ptype, legislature)`: the two `assert`
statements run first, in source order, and raise `AssertionError` when the
arguments are unsupported; otherwise the derived attributes are computed.
The constructor contains no call to `requests`, so the list of URLs fetched
during construction is empty; the returned list records exactly the fetches
performed. -/
def CPCApi.init (ptype : String) (legislature : Option String) :
    Except String (CPCApi × List String) :=
  if ¬ (ptype = "depute" ∨ ptype = "senateur") then
    .error "AssertionError"
  else if ¬ (legislature = some "2007-2012" ∨ legislature = some "2012-2017" ∨
             legislature = some "2017-2022" ∨ legislature = none) then
    .error "AssertionError"
  else
    let ptype_plural := ptype ++ "s"
    .ok ({ ptype := ptype
           legislature := legislature
           ptype_plural := ptype_plural
           base_url := "https://" ++ pyOrStr legislature "www" ++ ".nos" ++ ptype_plural ++ ".fr" },
         [])

/-! ## synthese (CPCApi.synthese) -/

/-- The message of the `AssertionError` raised by `synthese` for the
restricted legislature (api.py lines 77-79). -/
def syntheseErrorMsg : String :=
  "Global Synthesis on legislature does not work, " ++
  "see https://github.com/regardscitoyens/nosdeputes.fr/issues/69"

/-- Model of `CPCApi.synthese(month)` up to the fetch: the validation
check runs before any network access; on success the result is the URL the
method requests (the decoded payload being external data). A missing month
defaults to the string 'data' in the URL. -/
def CPCApi.synthese (api : CPCApi) (month : Option String) : Except String String :=
  if month = none ∧ api.legislature = some "2012-2017" then
    .error syntheseErrorMsg
  else
    let m := match month with
             | none => "data"
             | some s => s
    .ok (api.base_url ++ "/synthese/" ++ m ++ "/" ++ CPCApi.format)

/-! ## parlementarians (CPCApi.parlementarians): URL selection -/

/-- Model of the URL chosen by `CPCApi.parlementarians(active)`
(api.py lines 213-216): the full-roster URL when `active is None`, the
restricted `enmandat` URL for every other value of `active`. -/
def CPCApi.parlementarians_url (api : CPCApi) (active : Option Bool) : String :=
  match active with
  | none => api.base_url ++ "/" ++ api.ptype_plural ++ "/" ++ CPCApi.format
  | some _ => api.base_url ++ "/" ++ api.ptype_plural ++ "/enmandat/" ++ CPCApi.format

/-! ## Parliamentarian records and the search facade -/

/-- A `Parliamentarian` as far as the search facade sees it: its `__dict__`
is populated verbatim from the remote record (`self.__dict__.update(dict_parl)`,
api.py line 309), so it is an attribute map from names to string values.
The back-reference to the owning client does not participate in search. -/
structure Parliamentarian where
  attrs : List (String × String)
deriving Repr, DecidableEq

/-- Python attribute access `x.__dict__[field]` used by the search
processor; a missing field would raise `KeyError`, which is outside the
claims about search, so the total model returns the found value (all
claims only exercise present fields). -/
def Parliamentarian.dictGet (p : Parliamentarian) (field : String) : Option String :=
  p.attrs.lookup field

/-- The `processor` lambda of `search_parliamentarians` (api.py line 248):
`lambda x: x.__dict__[field] if isinstance(x, Parliamentarian) else x`.
The fuzzy matcher applies it both to candidates (Parliamentarians) and to
the raw query string. -/
def searchProcessor (field : String) : Parliamentarian ⊕ String → Option String
  | .inl p => p.dictGet field
  | .inr s => some s

/-- The type of the external Fuzzy Matcher collaborator `extractBests`
(spec section 6): given the query, the candidate roster, the extraction
processor and an integer limit, it returns an ordered list of
(candidate, score) pairs. Scores are the 0..100 similarity values. -/
def Matcher : Type :=
  String → List Parliamentarian → (Parliamentarian ⊕ String → Option String) → Int →
    List (Parliamentarian × Nat)

/-- Python `limit or 1` (api.py line 249): `None` and `0` are falsy and
yield `1`; every other integer (negative included) is truthy. -/
def pyOrOne (limit : Option Int) : Int :=
  match limit with
  | none => 1
  | some l => if l = 0 then 1 else l

/-- The possible shapes of a `search_parliamentarians` return value:
a bare record, a (record, score) pair, a list of bare records, a list of
pairs, or an `IndexError` escaping from `extracted[0]` on an empty match
list. -/
inductive SearchResult where
  | one (p : Parliamentarian)
  | oneWithScore (p : Parliamentarian) (score : Nat)
  | many (ps : List Parliamentarian)
  | manyWithScore (ps : List (Parliamentarian × Nat))
  | indexError
deriving Repr, DecidableEq

/-- Whether a search result carries similarity scores. -/
def SearchResult.isScored : SearchResult → Bool
  | .oneWithScore _ _ => true
  | .manyWithScore _ => true
  | _ => false

/-- Model of `CPCApi.search_parliamentarians(q, field='nom', limit=None,
no_score=True)` (api.py lines 221-259). The roster argument stands for
`self.parlementarians()`; the matcher is the external `extractBests`.
The matcher is called with `limit=limit or 1`; then `limit is None`
selects the single-result branch (indexing `extracted[0]`, which raises
`IndexError` on an empty match list), any other limit the list branch;
`no_score` strips the scores. -/
def CPCApi.search_parliamentarians (matcher : Matcher) (roster : List Parliamentarian)
    (q : String) (field : String) (limit : Option Int) (no_score : Bool) : SearchResult :=
  let extracted := matcher q roster (searchProcessor field) (pyOrOne limit)
  match limit with
  | none =>
    match extracted with
    | [] => .indexError
    | e :: _ => if no_score then .one e.1 else .oneWithScore e.1 e.2
  | some _ =>
    if no_score then .many (extracted.map Prod.fst) else .manyWithScore extracted

/-- Each adjacent pair of scores is in weakly descending order
(executable check). -/
def scoresDescendingB : List (Parliamentarian × Nat) → Bool
  | [] => true
  | [_] => true
  | a :: b :: rest => (b.2 ≤ a.2 : Bool) && scoresDescendingB (b :: rest)

/-- Scores are in weakly descending order. -/
def scoresDescending (l : List (Parliamentarian × Nat)) : Prop :=
  scoresDescendingB l = true

instance (l : List (Parliamentarian × Nat)) : Decidable (scoresDescending l) :=
  inferInstanceAs (Decidable (scoresDescendingB l = true))

/-! ## The memoize decorator (api.py lines 21-28)

`memoize(f)` computes `k = (args, tuple(sorted(kargs.items())))` and stores
`f(*args, **kargs)` in the single class-level dictionary `CPCApi.cache`
under `k`.  The wrapped function `f` itself is NOT part of the key, and the
same `CPCApi.cache` dictionary is shared by every memoized method.
Arguments (including `self`, modelled by an instance identifier in the
first position) and returned JSON-ish values are modelled as strings. -/

/-- A cache key as built by `memoize`: the positional argument tuple and
the name-sorted keyword argument items. -/
structure CacheKey where
  args : List String
  kwargs : List (String × String)
deriving Repr, DecidableEq

/-- Insertion into a list sorted by keyword name (then value), modelling
Python's `sorted` on `dict.items()`. -/
def insortItem (x : String × String) : List (String × String) → List (String × String)
  | [] => [x]
  | y :: ys => if x.1 < y.1 ∨ (x.1 = y.1 ∧ x.2 ≤ y.2) then x :: y :: ys else y :: insortItem x ys

/-- Python `tuple(sorted(kargs.items()))`. -/
def sortItems : List (String × String) → List (String × String)
  | [] => []
  | x :: xs => insortItem x (sortItems xs)

/-- The key `memoize` builds from a call's arguments (api.py line 24). -/
def mkKey (args : List String) (kwargs : List (String × String)) : CacheKey :=
  { args := args, kwargs := sortItems kwargs }

/-- The process-wide memoization state: the `CPCApi.cache` dictionary, plus
a log of the underlying-function invocations that actually happened, each
tagged with the name of the memoized operation (the log is the observation
needed to state "the fetch is performed exactly once"). -/
structure MemoState where
  cache : List (CacheKey × String)
  calls : List (String × CacheKey)
deriving Repr, DecidableEq

/-- The empty cache, as at process start. -/
def MemoState.initial : MemoState := { cache := [], calls := [] }

/-- One call through the `memoize` wrapper of the operation named `opName`
whose underlying body is `underlying`: if the key is already in
`CPCApi.cache` the cached value is returned and the underlying body is not
invoked; otherwise the body runs (logged) and its result is stored.
Faithful to api.py lines 23-27: the lookup key never mentions `opName`. -/
def memoCall (opName : String) (underlying : CacheKey → String) (args : List String)
    (kwargs : List (String × String)) (st : MemoState) : String × MemoState :=
  let k := mkKey args kwargs
  match st.cache.lookup k with
  | some v => (v, st)
  | none =>
    let v := underlying k
    (v, { cache := st.cache ++ [(k, v)], calls := st.calls ++ [(opName, k)] })

/-- The number of times the operation named `opName` actually invoked its
underlying body in state `st`. -/
def MemoState.invocations (st : MemoState) (opName : String) : Nat :=
  (st.calls.filter (fun c => c.1 == opName)).length

/-! ## The entity model: Vote and Balloting (api.py lines 169-196, 262-301)

Python objects have identity; the embedding makes identity explicit with
allocation numbers (`oid` for Ballotings, `voteId` for Votes) handed out by
monotone counters in `ApiState`.  Two references denote the identical
Python object exactly when they carry the same allocation number. -/

/-- The embedded balloting record of a vote payload
(`dict_vote["scrutin"]`): the fields the code reads are the numeric
identifier, a title and an outcome code. -/
structure BallotingPayload where
  numero : Nat
  titre : String
  sort : String
deriving Repr, DecidableEq

/-- One element of `data["votes"]`, after the `dict_vote = dict_vote["vote"]`
unwrapping: the embedded balloting record plus the vote-specific fields the
code reads (`parlementaire_slug`, `position`). -/
structure VotePayload where
  scrutin : BallotingPayload
  parlementaire_slug : String
  position : String
deriving Repr, DecidableEq

/-- A `Vote` object: attributes copied from the payload
(`self.__dict__.update(dct_vote)`), the reference to its Balloting (by
allocation number), and `number_vote = self.balloting.numero`
(api.py lines 266-270).  `voteId` is the object's identity. -/
structure Vote where
  voteId : Nat
  parlementaire_slug : String
  position : String
  ballotingRef : Nat
  number_vote : Nat
deriving Repr, DecidableEq

/-- The string whose Python hash `Vote.__hash__` returns:
`f"{self.number_vote}{self.parlementaire_slug}"` (api.py lines 272-273). -/
def Vote.hashKey (v : Vote) : String :=
  toString v.number_vote ++ v.parlementaire_slug

/-- Python `==` on Vote objects.  `Vote` defines `__hash__` but NOT
`__eq__`, so equality is inherited from `object`: it is object identity.
In the embedding, identity of two Vote references is equality of their
allocation numbers. -/
def Vote.pyEq (v w : Vote) : Bool :=
  v.voteId == w.voteId

/-- A `Balloting` object: `oid` is its identity, the payload fields are
copied by `self.__dict__.update(dct_balloting)`, and `set_votes` starts
empty (api.py lines 284-287).  The Python `set` is modelled as the list of
its elements in insertion order; `set.add` semantics are in `add_vote`. -/
structure Balloting where
  oid : Nat
  numero : Nat
  titre : String
  sort : String
  set_votes : List Vote
deriving Repr, DecidableEq

/-- `Balloting.__init__(dct_balloting)` (api.py lines 284-287) at a given
fresh allocation number. -/
def Balloting.init (p : BallotingPayload) (oid : Nat) : Balloting :=
  { oid := oid, numero := p.numero, titre := p.titre, sort := p.sort, set_votes := [] }

/-- `Balloting.add_vote(vote)` = `self.set_votes.add(vote)`
(api.py lines 289-296).  A Python `set` inserts the element unless an
element that compares equal (`==`, after the hash probe) is already
present; since Vote equality is object identity (`Vote.pyEq`), the insert
is skipped only when the very same object is already in the set. -/
def Balloting.add_vote (b : Balloting) (v : Vote) : Balloting :=
  if b.set_votes.any (fun w => Vote.pyEq w v) then b
  else { b with set_votes := b.set_votes ++ [v] }

/-- `Vote.__init__(dct_vote, balloting)` (api.py lines 266-270) at a fresh
vote allocation number: builds the Vote object and, before the constructor
returns, registers it into its Balloting's vote set via
`self.balloting.add_vote(self)`.  Returns the new Vote together with the
updated state of its Balloting. -/
def Vote.init (dct_vote : VotePayload) (balloting : Balloting) (vid : Nat) :
    Vote × Balloting :=
  let v : Vote :=
    { voteId := vid
      parlementaire_slug := dct_vote.parlementaire_slug
      position := dct_vote.position
      ballotingRef := balloting.oid
      number_vote := balloting.numero }
  (v, balloting.add_vote v)

/-- The mutable per-client state that `parliamentarian_votes` reads and
writes: the interning dictionary `self.dct_all_ballotings` from balloting
identifier to the (current state of the) interned Balloting object, the
two identity counters, and `allocs`, the log of `Balloting.__init__`
invocations (recording each constructed Balloting's identifier, in
order). -/
structure ApiState where
  dct_all_ballotings : Nat → Option Balloting
  nextOid : Nat
  nextVoteId : Nat
  allocs : List Nat

/-- The state of a freshly constructed client: `self.dct_all_ballotings =
dict()` (api.py line 58), no objects allocated yet. -/
def ApiState.initial : ApiState :=
  { dct_all_ballotings := fun _ => none, nextOid := 0, nextVoteId := 0, allocs := [] }

/-- One iteration of the loop in `parliamentarian_votes`
(api.py lines 188-194):

    dict_balloting = dict_vote["scrutin"]
    balloting = self.dct_all_ballotings[dict_balloting["numero"]] = \
        self.dct_all_ballotings.get(dict_balloting["numero"], Balloting(dict_balloting))
    vote_obj = Vote(dict_vote, balloting)

Python evaluates the default argument of `dict.get` eagerly, so
`Balloting(dict_balloting)` runs — allocating a fresh object — on every
iteration, even when the identifier is already interned; the fresh object
is then discarded in that case.  The chained assignment stores the chosen
Balloting back under its identifier, and the Vote constructor mutates that
same object, so the updated object is what the dictionary ends up
holding. -/
def processVote (st : ApiState) (dict_vote : VotePayload) : Vote × ApiState :=
  let numero := dict_vote.scrutin.numero
  let freshB := Balloting.init dict_vote.scrutin st.nextOid
  let st1 : ApiState :=
    { st with nextOid := st.nextOid + 1, allocs := st.allocs ++ [numero] }
  let balloting :=
    match st1.dct_all_ballotings numero with
    | some b => b
    | none => freshB
  let (vote_obj, balloting1) := Vote.init dict_vote balloting st1.nextVoteId
  (vote_obj,
   { st1 with
       nextVoteId := st1.nextVoteId + 1
       dct_all_ballotings :=
         fun n => if n = numero then some balloting1 else st1.dct_all_ballotings n })

/-- The loop of `CPCApi.parliamentarian_votes` over the decoded payload
list `data["votes"]` (api.py lines 187-196), producing `lst_votes` and the
updated client state.  Several calls of the method (for different slugs)
compose by concatenating their payload lists, since the interning state
lives on the client. -/
def CPCApi.parliamentarian_votes (st : ApiState) : List VotePayload → List Vote × ApiState
  | [] => ([], st)
  | p :: rest =>
    let (v, st1) := processVote st p
    let (vs, st2) := CPCApi.parliamentarian_votes st1 rest
    (v :: vs, st2)

end CpcApi

namespace CpcApi

/-! ## Theorems settling the claims -/

/-- The validity predicate checked by the first assert of `CPCApi.__init__`. -/
def validPtype (ptype : String) : Prop :=
  ptype = "depute" ∨ ptype = "senateur"

/-- The validity predicate checked by the second assert of `CPCApi.__init__`. -/
def validLegislature (legislature : Option String) : Prop :=
  legislature = some "2007-2012" ∨ legislature = some "2012-2017" ∨
    legislature = some "2017-2022" ∨ legislature = none

instance (p : String) : Decidable (validPtype p) := by
  unfold validPtype; infer_instance

instance (l : Option String) : Decidable (validLegislature l) := by
  unfold validLegislature; infer_instance

/-- `search_parliamentarians` called with the source's default arguments
(api.py line 222): `field='nom'`, `limit=None`, `no_score=True`. -/
def CPCApi.search_parliamentarians_default (matcher : Matcher)
    (roster : List Parliamentarian) (q : String) : SearchResult :=
  CPCApi.search_parliamentarians matcher roster q "nom" none true

/-- A concrete roster entry used to evaluate the model on closed inputs. -/
def p0 : Parliamentarian :=
  { attrs := [("nom", "Melenchon"), ("groupe_sigle", "X")] }

/-- A concrete instance of the Fuzzy Matcher interface used for closed
evaluations: it scores every candidate 100 and returns the first `limit`
candidates. -/
def constMatcher : Matcher :=
  fun _ roster _ lim => (roster.map (fun p => (p, 100))).take lim.toNat

/-- Stand-in for the underlying body of the memoized `CPCApi.search`
(api.py line 146): returns its own distinct payload. -/
def searchUnderlying : CacheKey → String := fun _ => "search-json"

/-- Stand-in for the underlying body of the memoized
`CPCApi.parliamentarian_votes` (api.py line 169): returns its own
distinct payload. -/
def votesUnderlying : CacheKey → String := fun _ => "votes-list"

/-- The call sequence exhibiting the cache-key collision: on one client
instance (the instance tag "api1" stands for the `self` positional
argument), `api.search('foo')` runs first, then
`api.parliamentarian_votes('foo')` twice.  Both methods build the cache
key `((self, 'foo'), ())`, and `memoize` does not mix the wrapped
function into the key, so all three calls share one cache entry.  The
trace returns the three results and the final memoization state. -/
def collisionTrace : (String × String × String) × MemoState :=
  let r1 := memoCall "search" searchUnderlying ["api1", "foo"] [] MemoState.initial
  let r2 := memoCall "parliamentarian_votes" votesUnderlying ["api1", "foo"] [] r1.2
  let r3 := memoCall "parliamentarian_votes" votesUnderlying ["api1", "foo"] [] r2.2
  ((r1.1, r2.1, r3.1), r3.2)

/-- A concrete balloting payload with identifier 42. -/
def bp42 : BallotingPayload :=
  { numero := 42, titre := "Article premier", sort := "adopte" }

/-- A concrete vote payload: parliamentarian "a-slug" votes "pour" on
balloting 42. -/
def vp_a : VotePayload :=
  { scrutin := bp42, parlementaire_slug := "a-slug", position := "pour" }

/-- A second concrete vote payload, "b-slug" voting "contre" on the same
balloting 42. -/
def vp_b : VotePayload :=
  { scrutin := bp42, parlementaire_slug := "b-slug", position := "contre" }

/-- The state invariant maintained by the vote-recording loop: every
Balloting interned under identifier `n` carries `numero = n`, and every
Vote in its vote set was allocated before the current vote counter,
references that Balloting, and carries its identifier as `number_vote`. -/
def GoodState (st : ApiState) : Prop :=
  ∀ n b, st.dct_all_ballotings n = some b →
    b.numero = n ∧
    ∀ v ∈ b.set_votes,
      v.voteId < st.nextVoteId ∧ v.ballotingRef = b.oid ∧ v.number_vote = n

/-- The size of the vote set interned under identifier `n` (0 when no
Balloting is interned there yet). -/
def setSizeAt (st : ApiState) (n : Nat) : Nat :=
  match st.dct_all_ballotings n with
  | some b => b.set_votes.length
  | none => 0

/-- C6: constructing a client succeeds (with no network fetch: the fetch
log of construction is empty) exactly when the parliamentarian type and
the legislative period are both supported, and raises the validation
error (`AssertionError`, before any network access) exactly otherwise. -/
theorem C6_constructor_validation (ptype : String) (legislature : Option String) :
    ((∃ api, CPCApi.init ptype legislature = Except.ok (api, ([] : List String))) ↔
      (validPtype ptype ∧ validLegislature legislature)) ∧
    (CPCApi.init ptype legislature = Except.error "AssertionError" ↔
      ¬ (validPtype ptype ∧ validLegislature legislature)) := by
  unfold CPCApi.init validPtype validLegislature
  by_cases h1 : ptype = "depute" ∨ ptype = "senateur" <;>
    by_cases h2 : legislature = some "2007-2012" ∨ legislature = some "2012-2017" ∨
        legislature = some "2017-2022" ∨ legislature = none <;>
      simp [h1, h2]

/-- C7: `synthese` raises the explicit restriction error (naming the
restriction, before any fetch) exactly when no month is given and the
client's legislature is 2012-2017; in every other case it proceeds to
fetch the synthesis URL, a missing month defaulting to the 'data' form. -/
theorem C7_synthese_restriction (api : CPCApi) (month : Option String) :
    (api.synthese month = Except.error syntheseErrorMsg ↔
      (month = none ∧ api.legislature = some "2012-2017")) ∧
    (api.synthese month =
        Except.ok (api.base_url ++ "/synthese/" ++
          (match month with | none => "data" | some s => s) ++ "/" ++ CPCApi.format) ↔
      ¬ (month = none ∧ api.legislature = some "2012-2017")) := by
  unfold CPCApi.synthese
  by_cases h : month = none ∧ api.legislature = some "2012-2017" <;>
    simp [h, syntheseErrorMsg]

/-- C10: `parlementarians(active)` requests the restricted `enmandat` URL
for every value of `active` other than `None` — in particular
`active=False` behaves exactly like `active=True` — and requests the
full-roster URL exactly when `active` is `None`. -/
theorem C10_active_flag (api : CPCApi) (b : Bool) :
    api.parlementarians_url (some b) =
      api.base_url ++ "/" ++ api.ptype_plural ++ "/enmandat/" ++ CPCApi.format ∧
    api.parlementarians_url (some false) = api.parlementarians_url (some true) ∧
    api.parlementarians_url none =
      api.base_url ++ "/" ++ api.ptype_plural ++ "/" ++ CPCApi.format := by
  exact ⟨rfl, rfl, rfl⟩

end CpcApi

namespace CpcApi

/-- C3 counterexample: calling `search_parliamentarians` with the source's
default arguments (`limit=None`, `no_score=True`, api.py line 222) on a
non-empty roster returns a bare record with no score attached.  The claim
states that includeScore defaults to true, under which the default call
would have to return a (record, score) pair. -/
theorem C3_default_is_unscored :
    CPCApi.search_parliamentarians_default constMatcher [p0] "Melenchon" = SearchResult.one p0 ∧
    SearchResult.isScored (CPCApi.search_parliamentarians_default constMatcher [p0] "Melenchon")
      = false := by
  exact ⟨rfl, rfl⟩

/-- C3 (amended): output shape policy of `search_parliamentarians` with
includeScore defaulting to FALSE (the source default is `no_score=True`):
with `limit=None` exactly one result is returned — the matcher's best
match — bare when scores are suppressed and as a (record, score) pair
otherwise; with a positive integer limit `k` the call returns the list of
the matcher's at most `k` matches in descending score order, each item
shaped according to the score option.  The hypotheses are the documented
interface of the external Fuzzy Matcher, instantiated at the two limit
values the facade can pass. -/
theorem C3_search_output_shape (matcher : Matcher) (roster : List Parliamentarian)
    (q field : String) (k : Int) (hk : 0 < k)
    (hlen : (matcher q roster (searchProcessor field) k).length ≤ k.toNat)
    (hdesc : scoresDescending (matcher q roster (searchProcessor field) k))
    (hne : matcher q roster (searchProcessor field) 1 ≠ []) :
    (∃ p s rest, matcher q roster (searchProcessor field) 1 = (p, s) :: rest ∧
      CPCApi.search_parliamentarians matcher roster q field none true = SearchResult.one p ∧
      CPCApi.search_parliamentarians matcher roster q field none false
        = SearchResult.oneWithScore p s) ∧
    (CPCApi.search_parliamentarians matcher roster q field (some k) true
        = SearchResult.many ((matcher q roster (searchProcessor field) k).map Prod.fst) ∧
     CPCApi.search_parliamentarians matcher roster q field (some k) false
        = SearchResult.manyWithScore (matcher q roster (searchProcessor field) k) ∧
     ((matcher q roster (searchProcessor field) k).map Prod.fst).length ≤ k.toNat ∧
     scoresDescending (matcher q roster (searchProcessor field) k)) := by
  have hk0 : ¬ (k = 0) := by omega
  constructor
  · cases hE : matcher q roster (searchProcessor field) 1 with
    | nil => exact absurd hE hne
    | cons e rest =>
      obtain ⟨p, s⟩ := e
      exact ⟨p, s, rest, rfl,
        by simp [CPCApi.search_parliamentarians, pyOrOne, hE],
        by simp [CPCApi.search_parliamentarians, pyOrOne, hE]⟩
  · refine ⟨by simp [CPCApi.search_parliamentarians, pyOrOne, hk0],
      by simp [CPCApi.search_parliamentarians, pyOrOne, hk0], ?_, hdesc⟩
    simpa using hlen

/-- Witness for C3_search_output_shape at the concrete matcher instance
`constMatcher`, the one-record roster `[p0]` and `k = 2`. -/
theorem C3_search_output_shape_witness :
    ((0 : Int) < 2 ∧
     (constMatcher "q" [p0] (searchProcessor "nom") 2).length ≤ (2 : Int).toNat ∧
     scoresDescending (constMatcher "q" [p0] (searchProcessor "nom") 2) ∧
     constMatcher "q" [p0] (searchProcessor "nom") 1 ≠ []) ∧
    ((∃ p s rest, constMatcher "q" [p0] (searchProcessor "nom") 1 = (p, s) :: rest ∧
       CPCApi.search_parliamentarians constMatcher [p0] "q" "nom" none true
         = SearchResult.one p ∧
       CPCApi.search_parliamentarians constMatcher [p0] "q" "nom" none false
         = SearchResult.oneWithScore p s) ∧
     (CPCApi.search_parliamentarians constMatcher [p0] "q" "nom" (some 2) true
         = SearchResult.many ((constMatcher "q" [p0] (searchProcessor "nom") 2).map Prod.fst) ∧
      CPCApi.search_parliamentarians constMatcher [p0] "q" "nom" (some 2) false
         = SearchResult.manyWithScore (constMatcher "q" [p0] (searchProcessor "nom") 2) ∧
      ((constMatcher "q" [p0] (searchProcessor "nom") 2).map Prod.fst).length ≤ (2 : Int).toNat ∧
      scoresDescending (constMatcher "q" [p0] (searchProcessor "nom") 2))) :=
  ⟨⟨by decide, by decide, by decide, by decide⟩,
   C3_search_output_shape constMatcher [p0] "q" "nom" 2 (by decide) (by decide)
     (by decide) (by decide)⟩

/-- C8: when the Fuzzy Matcher returns no matches (as on an empty roster),
`search_parliamentarians` with a positive integer limit returns the empty
list (in either score shape), while with `limit=None` the indexing
`extracted[0]` raises an uncaught `IndexError`; no dedicated no-match
error or sentinel is signaled. -/
theorem C8_empty_match (matcher : Matcher) (q field : String) (k : Int) (hk : 0 < k)
    (h1 : matcher q [] (searchProcessor field) 1 = [])
    (hk2 : matcher q [] (searchProcessor field) k = []) :
    CPCApi.search_parliamentarians matcher [] q field none true = SearchResult.indexError ∧
    CPCApi.search_parliamentarians matcher [] q field none false = SearchResult.indexError ∧
    CPCApi.search_parliamentarians matcher [] q field (some k) true = SearchResult.many [] ∧
    CPCApi.search_parliamentarians matcher [] q field (some k) false
      = SearchResult.manyWithScore [] := by
  have hk0 : ¬ (k = 0) := by omega
  exact ⟨by simp [CPCApi.search_parliamentarians, pyOrOne, h1],
    by simp [CPCApi.search_parliamentarians, pyOrOne, h1],
    by simp [CPCApi.search_parliamentarians, pyOrOne, hk0, hk2],
    by simp [CPCApi.search_parliamentarians, pyOrOne, hk0, hk2]⟩

/-- Witness for C8_empty_match at the concrete matcher instance and k = 3. -/
theorem C8_empty_match_witness :
    ((0 : Int) < 3 ∧
     constMatcher "q" [] (searchProcessor "nom") 1 = [] ∧
     constMatcher "q" [] (searchProcessor "nom") 3 = []) ∧
    (CPCApi.search_parliamentarians constMatcher [] "q" "nom" none true
       = SearchResult.indexError ∧
     CPCApi.search_parliamentarians constMatcher [] "q" "nom" none false
       = SearchResult.indexError ∧
     CPCApi.search_parliamentarians constMatcher [] "q" "nom" (some 3) true
       = SearchResult.many [] ∧
     CPCApi.search_parliamentarians constMatcher [] "q" "nom" (some 3) false
       = SearchResult.manyWithScore []) :=
  ⟨⟨by decide, by decide, by decide⟩,
   C8_empty_match constMatcher "q" "nom" 3 (by decide) (by decide) (by decide)⟩

/-- C9: with `limit=0` the matcher is called with limit `0 or 1 = 1` and
the list-shaped branch is taken (`0 is not None`), so on a roster where
the matcher finds a match the call returns a one-element list rather than
an empty one. -/
theorem C9_limit_zero (matcher : Matcher) (roster : List Parliamentarian) (q field : String)
    (hlen : (matcher q roster (searchProcessor field) 1).length ≤ 1)
    (hne : matcher q roster (searchProcessor field) 1 ≠ []) :
    ∃ p s, matcher q roster (searchProcessor field) 1 = [(p, s)] ∧
      CPCApi.search_parliamentarians matcher roster q field (some 0) true
        = SearchResult.many [p] ∧
      CPCApi.search_parliamentarians matcher roster q field (some 0) false
        = SearchResult.manyWithScore [(p, s)] := by
  cases hE : matcher q roster (searchProcessor field) 1 with
  | nil => exact absurd hE hne
  | cons e rest =>
    have hrest : rest = [] := by
      rw [hE] at hlen
      simp only [List.length_cons] at hlen
      have : rest.length = 0 := by omega
      exact List.length_eq_zero.mp this
    subst hrest
    obtain ⟨p, s⟩ := e
    exact ⟨p, s, rfl,
      by simp [CPCApi.search_parliamentarians, pyOrOne, hE],
      by simp [CPCApi.search_parliamentarians, pyOrOne, hE]⟩

/-- Witness for C9_limit_zero at the concrete matcher instance and the
one-record roster. -/
theorem C9_limit_zero_witness :
    ((constMatcher "q" [p0] (searchProcessor "nom") 1).length ≤ 1 ∧
     constMatcher "q" [p0] (searchProcessor "nom") 1 ≠ []) ∧
    (∃ p s, constMatcher "q" [p0] (searchProcessor "nom") 1 = [(p, s)] ∧
      CPCApi.search_parliamentarians constMatcher [p0] "q" "nom" (some 0) true
        = SearchResult.many [p] ∧
      CPCApi.search_parliamentarians constMatcher [p0] "q" "nom" (some 0) false
        = SearchResult.manyWithScore [(p, s)]) :=
  ⟨⟨by decide, by decide⟩,
   C9_limit_zero constMatcher [p0] "q" "nom" (by decide) (by decide)⟩

end CpcApi

namespace CpcApi

/-- C4: evaluation of the memoize model at the colliding call sequence.
`memoize` keys the shared `CPCApi.cache` by the argument tuple alone, so
after `api.search('foo')` the two calls `api.parliamentarian_votes('foo')`
with equal argument tuples both hit the entry that `search` populated:
the underlying body of `parliamentarian_votes` is invoked zero times (not
exactly once), `search`'s body once, and the value returned to both
`parliamentarian_votes` calls is `search`'s payload, which differs from
what `parliamentarian_votes`'s own body would have returned. -/
theorem C4_cache_key_collision :
    collisionTrace.1 = ("search-json", "search-json", "search-json") ∧
    collisionTrace.2.invocations "parliamentarian_votes" = 0 ∧
    collisionTrace.2.invocations "search" = 1 ∧
    votesUnderlying (mkKey ["api1", "foo"] []) = "votes-list" ∧
    ("search-json" : String) ≠ "votes-list" := by
  exact ⟨rfl, rfl, rfl, rfl, by decide⟩

/-- C5: `Vote.__init__` always registers the newly constructed Vote into
its Balloting's vote set before returning: the returned Vote is a member
of the returned Balloting state's `set_votes` (whose identity `oid` is
unchanged), so no constructed Vote is absent from its Balloting's set.
The hypothesis says the allocation number `vid` belongs to a new object,
identical to no object already in the set — automatic in Python, where a
newly allocated object is distinct from every existing one. -/
theorem C5_no_orphan_votes (dct_vote : VotePayload) (balloting : Balloting) (vid : Nat)
    (hfresh : (balloting.set_votes.any fun w => w.voteId == vid) = false) :
    (Vote.init dct_vote balloting vid).1 ∈ (Vote.init dct_vote balloting vid).2.set_votes ∧
    (Vote.init dct_vote balloting vid).2.oid = balloting.oid := by
  unfold Vote.init Balloting.add_vote
  simp [Vote.pyEq, hfresh]

/-- Witness for C5_no_orphan_votes: a vote recorded into a freshly
interned empty Balloting. -/
theorem C5_no_orphan_votes_witness :
    (((Balloting.init bp42 7).set_votes.any fun w => w.voteId == 3) = false) ∧
    ((Vote.init vp_a (Balloting.init bp42 7) 3).1
        ∈ (Vote.init vp_a (Balloting.init bp42 7) 3).2.set_votes ∧
     (Vote.init vp_a (Balloting.init bp42 7) 3).2.oid = (Balloting.init bp42 7).oid) :=
  ⟨by decide, C5_no_orphan_votes vp_a (Balloting.init bp42 7) 3 (by decide)⟩

/-- C2: evaluation of the vote-recording loop on a duplicate payload —
the same (balloting identifier, parliamentarian slug) pair recorded
twice into the same Balloting.  Both Vote objects survive in the vote
set (its size is 2), even though the two entries have the identical
`__hash__` source string "42a-slug": `Vote` defines `__hash__` but not
`__eq__`, so the set's equality test falls back to object identity and
never identifies the two distinct objects.  The claim's asserted
deduplication does not happen. -/
theorem C2_duplicate_votes_both_survive :
    ((CPCApi.parliamentarian_votes ApiState.initial [vp_a, vp_a]).2.dct_all_ballotings 42).map
        (fun b => (b.set_votes.length, b.set_votes.map Vote.hashKey))
      = some (2, ["42a-slug", "42a-slug"]) ∧
    ((CPCApi.parliamentarian_votes ApiState.initial [vp_a, vp_a]).2.dct_all_ballotings 42).map
        (fun b => b.set_votes.map Vote.voteId)
      = some [0, 1] := by
  exact ⟨rfl, rfl⟩

end CpcApi

namespace CpcApi

/-- Unfolding: recording no payloads changes nothing. -/
theorem parliamentarian_votes_nil (st : ApiState) :
    CPCApi.parliamentarian_votes st [] = ([], st) := rfl

/-- Unfolding: recording `p :: rest` records `p`, then `rest` from the
resulting state. -/
theorem parliamentarian_votes_cons (st : ApiState) (p : VotePayload) (rest : List VotePayload) :
    CPCApi.parliamentarian_votes st (p :: rest) =
      ((processVote st p).1 :: (CPCApi.parliamentarian_votes (processVote st p).2 rest).1,
       (CPCApi.parliamentarian_votes (processVote st p).2 rest).2) := rfl

/-- In a good state, no vote already interned anywhere carries the next
(still unallocated) vote identity. -/
theorem GoodState.fresh_vote (st : ApiState) (hst : GoodState st) (n : Nat) (b : Balloting)
    (hd : st.dct_all_ballotings n = some b) :
    (b.set_votes.any fun w => w.voteId == st.nextVoteId) = false := by
  rw [List.any_eq_false]
  intro w hw
  have hlt := ((hst n b hd).2 w hw).1
  simp [Nat.ne_of_lt hlt]

/-- Evaluation of one loop iteration when the balloting identifier is
already interned: the eagerly evaluated `Balloting(dict_balloting)`
allocation is recorded in `allocs` and discarded, the interned Balloting
is reused, and the new Vote is appended to its vote set. -/
theorem processVote_eq_interned (st : ApiState) (p : VotePayload) (b : Balloting)
    (hd : st.dct_all_ballotings p.scrutin.numero = some b)
    (hfresh : (b.set_votes.any fun w => w.voteId == st.nextVoteId) = false) :
    processVote st p =
      (⟨st.nextVoteId, p.parlementaire_slug, p.position, b.oid, b.numero⟩,
       { dct_all_ballotings := fun n =>
           if n = p.scrutin.numero then
             some { b with set_votes := b.set_votes ++
               [⟨st.nextVoteId, p.parlementaire_slug, p.position, b.oid, b.numero⟩] }
           else st.dct_all_ballotings n
         nextOid := st.nextOid + 1
         nextVoteId := st.nextVoteId + 1
         allocs := st.allocs ++ [p.scrutin.numero] }) := by
  unfold processVote Vote.init Balloting.add_vote
  simp [hd, Vote.pyEq, hfresh]

/-- Evaluation of one loop iteration when the balloting identifier is not
interned yet: the freshly constructed Balloting is interned and receives
the new Vote as sole element of its vote set. -/
theorem processVote_eq_fresh (st : ApiState) (p : VotePayload)
    (hd : st.dct_all_ballotings p.scrutin.numero = none) :
    processVote st p =
      (⟨st.nextVoteId, p.parlementaire_slug, p.position, st.nextOid, p.scrutin.numero⟩,
       { dct_all_ballotings := fun n =>
           if n = p.scrutin.numero then
             some { oid := st.nextOid, numero := p.scrutin.numero, titre := p.scrutin.titre
                    sort := p.scrutin.sort
                    set_votes := [⟨st.nextVoteId, p.parlementaire_slug, p.position,
                                   st.nextOid, p.scrutin.numero⟩] }
           else st.dct_all_ballotings n
         nextOid := st.nextOid + 1
         nextVoteId := st.nextVoteId + 1
         allocs := st.allocs ++ [p.scrutin.numero] }) := by
  unfold processVote Vote.init Balloting.init Balloting.add_vote
  simp [hd]

end CpcApi

namespace CpcApi

/-- One loop iteration, from any good state: goodness is preserved, the
vote counter advances by one, exactly one Balloting allocation (for the
payload's identifier) is logged, every interned Balloting keeps its
identity and its vote set only grows, the vote-set size under the
payload's identifier grows by exactly one, and the returned Vote carries
the payload's identifier and slug and is a member of the vote set of the
Balloting interned under that identifier, referencing its identity. -/
theorem processVote_step (st : ApiState) (p : VotePayload) (hst : GoodState st) :
    GoodState (processVote st p).2 ∧
    (processVote st p).2.nextVoteId = st.nextVoteId + 1 ∧
    (processVote st p).2.allocs = st.allocs ++ [p.scrutin.numero] ∧
    (∀ n b, st.dct_all_ballotings n = some b →
      ∃ b', (processVote st p).2.dct_all_ballotings n = some b' ∧
        b'.oid = b.oid ∧ ∀ v ∈ b.set_votes, v ∈ b'.set_votes) ∧
    (∀ n, setSizeAt (processVote st p).2 n
      = setSizeAt st n + (if p.scrutin.numero == n then 1 else 0)) ∧
    ((processVote st p).1.number_vote = p.scrutin.numero ∧
     (processVote st p).1.parlementaire_slug = p.parlementaire_slug) ∧
    (∃ b', (processVote st p).2.dct_all_ballotings (processVote st p).1.number_vote = some b' ∧
      (processVote st p).1.ballotingRef = b'.oid ∧ (processVote st p).1 ∈ b'.set_votes) := by
  rcases hd : st.dct_all_ballotings p.scrutin.numero with _ | b
  · -- identifier not interned yet: the fresh Balloting is interned
    rw [processVote_eq_fresh st p hd]
    dsimp only
    refine ⟨?_, rfl, rfl, ?_, ?_, ⟨rfl, rfl⟩, ?_⟩
    · intro n b hd'
      dsimp only at hd'
      by_cases hnm : n = p.scrutin.numero
      · subst hnm
        rw [if_pos rfl] at hd'
        cases hd'
        refine ⟨rfl, ?_⟩
        intro v hv
        simp only [List.mem_singleton] at hv
        subst hv
        exact ⟨Nat.lt_succ_self _, rfl, rfl⟩
      · rw [if_neg hnm] at hd'
        obtain ⟨hnum, hvotes⟩ := hst n b hd'
        refine ⟨hnum, fun v hv => ?_⟩
        obtain ⟨h1, h2, h3⟩ := hvotes v hv
        exact ⟨Nat.lt_succ_of_lt h1, h2, h3⟩
    · intro n b hb
      have hnm : ¬ (n = p.scrutin.numero) := by
        intro h
        rw [h, hd] at hb
        cases hb
      exact ⟨b, by rw [if_neg hnm]; exact hb, rfl, fun v hv => hv⟩
    · intro n
      by_cases hnm : p.scrutin.numero = n
      · subst hnm
        simp [setSizeAt, hd]
      · have hnm' : ¬ (n = p.scrutin.numero) := fun h => hnm h.symm
        simp [setSizeAt, hnm, if_neg hnm']
    · refine ⟨⟨st.nextOid, p.scrutin.numero, p.scrutin.titre, p.scrutin.sort,
          [⟨st.nextVoteId, p.parlementaire_slug, p.position, st.nextOid, p.scrutin.numero⟩]⟩,
        by rw [if_pos rfl], rfl, ?_⟩
      simp
  · -- identifier already interned: the interned Balloting is reused
    have hfresh := GoodState.fresh_vote st hst p.scrutin.numero b hd
    obtain ⟨hbnum, hbvotes⟩ := hst p.scrutin.numero b hd
    rw [processVote_eq_interned st p b hd hfresh]
    dsimp only
    refine ⟨?_, rfl, rfl, ?_, ?_, ⟨hbnum, rfl⟩, ?_⟩
    · intro n b' hd'
      dsimp only at hd'
      by_cases hnm : n = p.scrutin.numero
      · subst hnm
        rw [if_pos rfl] at hd'
        cases hd'
        refine ⟨hbnum, ?_⟩
        intro v hv
        rcases List.mem_append.mp hv with hv | hv
        · obtain ⟨h1, h2, h3⟩ := hbvotes v hv
          exact ⟨Nat.lt_succ_of_lt h1, h2, h3⟩
        · simp only [List.mem_singleton] at hv
          subst hv
          exact ⟨Nat.lt_succ_self _, rfl, hbnum⟩
      · rw [if_neg hnm] at hd'
        obtain ⟨hnum, hvotes⟩ := hst n b' hd'
        refine ⟨hnum, fun v hv => ?_⟩
        obtain ⟨h1, h2, h3⟩ := hvotes v hv
        exact ⟨Nat.lt_succ_of_lt h1, h2, h3⟩
    · intro n b' hb'
      by_cases hnm : n = p.scrutin.numero
      · subst hnm
        rw [hd] at hb'
        cases hb'
        refine ⟨⟨b.oid, b.numero, b.titre, b.sort, b.set_votes ++
            [⟨st.nextVoteId, p.parlementaire_slug, p.position, b.oid, b.numero⟩]⟩,
          by rw [if_pos rfl], rfl, fun v hv => List.mem_append_left _ hv⟩
      · exact ⟨b', by rw [if_neg hnm]; exact hb', rfl, fun v hv => hv⟩
    · intro n
      by_cases hnm : p.scrutin.numero = n
      · subst hnm
        simp [setSizeAt, hd]
      · have hnm' : ¬ (n = p.scrutin.numero) := fun h => hnm h.symm
        simp [setSizeAt, hnm, if_neg hnm']
    · refine ⟨⟨b.oid, b.numero, b.titre, b.sort, b.set_votes ++
          [⟨st.nextVoteId, p.parlementaire_slug, p.position, b.oid, b.numero⟩]⟩,
        ?_, rfl, ?_⟩
      · rw [hbnum, if_pos rfl]
      · simp

end CpcApi

namespace CpcApi

/-- The inductive specification of the vote-recording loop over a payload
list: from any good state the loop preserves goodness, advances the vote
counter, logs exactly one Balloting allocation per payload (in payload
order), preserves every interned Balloting's identity while only growing
its vote set, grows the vote-set size under each identifier `n` by
exactly the number of payloads citing `n`, and returns Votes which are
members of the vote set of the Balloting interned under their identifier
and reference its identity; payloads and returned Votes correspond
pointwise in identifier and slug. -/
theorem parliamentarian_votes_spec (ps : List VotePayload) (st : ApiState)
    (hst : GoodState st) :
    GoodState (CPCApi.parliamentarian_votes st ps).2 ∧
    st.nextVoteId ≤ (CPCApi.parliamentarian_votes st ps).2.nextVoteId ∧
    (CPCApi.parliamentarian_votes st ps).2.allocs
      = st.allocs ++ ps.map (fun p => p.scrutin.numero) ∧
    (∀ n b, st.dct_all_ballotings n = some b →
      ∃ b', (CPCApi.parliamentarian_votes st ps).2.dct_all_ballotings n = some b' ∧
        b'.oid = b.oid ∧ ∀ v ∈ b.set_votes, v ∈ b'.set_votes) ∧
    (∀ n, setSizeAt (CPCApi.parliamentarian_votes st ps).2 n
      = setSizeAt st n + (ps.filter (fun p => p.scrutin.numero == n)).length) ∧
    (∀ v ∈ (CPCApi.parliamentarian_votes st ps).1,
      ∃ b', (CPCApi.parliamentarian_votes st ps).2.dct_all_ballotings v.number_vote
          = some b' ∧ v.ballotingRef = b'.oid ∧ v ∈ b'.set_votes) ∧
    List.Forall₂
      (fun p v => Vote.number_vote v = p.scrutin.numero ∧
        Vote.parlementaire_slug v = p.parlementaire_slug)
      ps (CPCApi.parliamentarian_votes st ps).1 := by
  induction ps generalizing st with
  | nil =>
    rw [parliamentarian_votes_nil]
    refine ⟨hst, Nat.le_refl _, by simp, ?_, ?_, ?_, List.Forall₂.nil⟩
    · intro n b hd
      exact ⟨b, hd, rfl, fun v hv => hv⟩
    · intro n
      simp
    · intro v hv
      simp at hv
  | cons p rest ih =>
    obtain ⟨hg1, hnv1, hal1, hpres1, hsz1, ⟨hnum0, hslug0⟩, hb1, hdb1, href1, hmem1⟩ :
        _ ∧ _ ∧ _ ∧ _ ∧ _ ∧ (_ ∧ _) ∧ ∃ b', _ ∧ _ ∧ _ := processVote_step st p hst
    obtain ⟨G, hle, hal, hpres, hsz, hprod, hpair⟩ := ih (processVote st p).2 hg1
    rw [parliamentarian_votes_cons]
    refine ⟨G, ?_, ?_, ?_, ?_, ?_, ?_⟩
    · calc st.nextVoteId ≤ st.nextVoteId + 1 := Nat.le_succ _
        _ = (processVote st p).2.nextVoteId := hnv1.symm
        _ ≤ _ := hle
    · rw [hal, hal1]
      simp
    · intro n b hd
      obtain ⟨b1, hd1, hoid1, hsub1⟩ := hpres1 n b hd
      obtain ⟨b2, hd2, hoid2, hsub2⟩ := hpres n b1 hd1
      exact ⟨b2, hd2, by rw [hoid2, hoid1], fun v hv => hsub2 v (hsub1 v hv)⟩
    · intro n
      rw [hsz n, hsz1 n, List.filter_cons]
      by_cases hnm : (p.scrutin.numero == n) = true
      · rw [if_pos hnm, if_pos hnm, List.length_cons]
        omega
      · rw [if_neg hnm, if_neg hnm]
        omega
    · intro v hv
      rcases List.mem_cons.mp hv with hv | hv
      · subst hv
        obtain ⟨b2, hd2, hoid2, hsub2⟩ := hpres _ hb1 hdb1
        exact ⟨b2, hd2, by rw [href1, hoid2], hsub2 _ hmem1⟩
      · exact hprod v hv
    · exact List.Forall₂.cons ⟨hnum0, hslug0⟩ hpair

end CpcApi

namespace CpcApi

/-- C1 counterexample: recording two vote payloads (for parliamentarians
"a-slug" and "b-slug") that cite the same balloting identifier 42 invokes
the `Balloting` constructor twice for identifier 42 — Python evaluates
the default argument of `dict.get(numero, Balloting(dict_balloting))`
eagerly on every iteration — so "exactly one Balloting object is
allocated for that identifier" fails; the second allocated Balloting is
discarded in favour of the interned first one. -/
theorem C1_two_allocations_for_one_identifier :
    (CPCApi.parliamentarian_votes ApiState.initial [vp_a, vp_b]).2.allocs = [42, 42] ∧
    ¬ ((CPCApi.parliamentarian_votes ApiState.initial [vp_a, vp_b]).2.allocs.count 42 = 1) := by
  exact ⟨rfl, by decide⟩

/-- C1 (amended): within one client, for every payload sequence processed
by the vote-recording loop (across one or several
`parliamentarian_votes` calls), exactly one Balloting is RETAINED
(interned) for each cited identifier `n` — while one Balloting
allocation per payload is logged, the non-first ones being constructed
eagerly and discarded — every resulting Vote whose identifier is `n`
references that identical interned Balloting instance (it carries its
`oid`), and after processing, that Balloting's vote set contains all N
recorded votes for `n` (its size is the number of payloads citing `n`). -/
theorem C1_interning (ps : List VotePayload) (n : Nat)
    (hn : ps.filter (fun p => p.scrutin.numero == n) ≠ []) :
    ∃ b, (CPCApi.parliamentarian_votes ApiState.initial ps).2.dct_all_ballotings n
        = some b ∧
      b.numero = n ∧
      (∀ v ∈ (CPCApi.parliamentarian_votes ApiState.initial ps).1,
        v.number_vote = n → v.ballotingRef = b.oid ∧ v ∈ b.set_votes) ∧
      b.set_votes.length = (ps.filter (fun p => p.scrutin.numero == n)).length ∧
      (CPCApi.parliamentarian_votes ApiState.initial ps).2.allocs
        = ps.map (fun p => p.scrutin.numero) ∧
      List.Forall₂
        (fun p v => Vote.number_vote v = p.scrutin.numero ∧
          Vote.parlementaire_slug v = p.parlementaire_slug)
        ps (CPCApi.parliamentarian_votes ApiState.initial ps).1 := by
  have hinit : GoodState ApiState.initial := by
    intro m b hd
    cases hd
  obtain ⟨G, _, hal, _, hsz, hprod, hpair⟩ :=
    parliamentarian_votes_spec ps ApiState.initial hinit
  have hsz0 := hsz n
  rcases hb : (CPCApi.parliamentarian_votes ApiState.initial ps).2.dct_all_ballotings n
      with _ | b
  · exfalso
    rw [setSizeAt, hb] at hsz0
    simp only [setSizeAt, ApiState.initial, Nat.zero_add] at hsz0
    exact hn (List.length_eq_zero.mp hsz0.symm)
  · rw [setSizeAt, hb] at hsz0
    simp only [setSizeAt, ApiState.initial, Nat.zero_add] at hsz0
    refine ⟨b, rfl, (G n b hb).1, ?_, hsz0, ?_, hpair⟩
    · intro v hv hvn
      obtain ⟨b', hd', href', hmem'⟩ := hprod v hv
      rw [hvn, hb] at hd'
      cases hd'
      exact ⟨href', hmem'⟩
    · simpa using hal

end CpcApi

namespace CpcApi

/-- Witness for C1_interning: the two concrete payloads for "a-slug" and
"b-slug", both citing balloting identifier 42. -/
theorem C1_interning_witness :
    ([vp_a, vp_b].filter (fun p => p.scrutin.numero == 42) ≠ []) ∧
    (∃ b, (CPCApi.parliamentarian_votes ApiState.initial [vp_a, vp_b]).2.dct_all_ballotings 42
        = some b ∧
      b.numero = 42 ∧
      (∀ v ∈ (CPCApi.parliamentarian_votes ApiState.initial [vp_a, vp_b]).1,
        v.number_vote = 42 → v.ballotingRef = b.oid ∧ v ∈ b.set_votes) ∧
      b.set_votes.length
        = ([vp_a, vp_b].filter (fun p => p.scrutin.numero == 42)).length ∧
      (CPCApi.parliamentarian_votes ApiState.initial [vp_a, vp_b]).2.allocs
        = [vp_a, vp_b].map (fun p => p.scrutin.numero) ∧
      List.Forall₂
        (fun p v => Vote.number_vote v = p.scrutin.numero ∧
          Vote.parlementaire_slug v = p.parlementaire_slug)
        [vp_a, vp_b] (CPCApi.parliamentarian_votes ApiState.initial [vp_a, vp_b]).1) :=
  ⟨by decide, C1_interning [vp_a, vp_b] 42 (by decide)⟩

end CpcApi
